import Mathlib

/-!
Verification of the download orchestration of the YT_Downloader repository.

The two Python modules, youtube_playlist_downloader.py and
youtube_video_downloader.py, are shallowly embedded below.  External
effects are made explicit:

* the external library calls (ydl.download, ydl.extract_info) are passed
  in as oracle functions describing what each invocation does;
* the exception machinery of Python is modelled by the PyExc type
  together with an Except result; the subclass relation of the yt_dlp
  exception classes is modelled by membership predicates;
* the log records and the number of external invocations are returned as
  data, so that the retry and skip behaviour can be stated as equations;
* the Python builtin str.isalnum is Unicode aware and external to the
  repository, so like the library calls it is passed in as an oracle
  predicate on characters; every theorem about the sanitizer holds for
  all interpretations of the builtin, in particular the true one.
-/

set_option maxHeartbeats 1000000

namespace YTDL

/-- Exceptions of the Python layer that the scripts interact with.
In the yt_dlp library both DownloadError and ExtractorError are
subclasses of YoutubeDLError; the youtubeDLError constructor stands for
a general library error belonging to neither subclass.  keyError models
a Python KeyError from a missing dictionary key. -/
inductive PyExc where
  | downloadError (msg : String)
  | extractorError (msg : String)
  | youtubeDLError (msg : String)
  | keyError (key : String)
  | otherExc (msg : String)
deriving DecidableEq

/-- Instance test against the yt_dlp.DownloadError class. -/
def PyExc.isDownloadError : PyExc → Bool
  | .downloadError _ => true
  | _ => false

/-- Instance test against the yt_dlp.utils.ExtractorError class. -/
def PyExc.isExtractorError : PyExc → Bool
  | .extractorError _ => true
  | _ => false

/-- Instance test against the yt_dlp.utils.YoutubeDLError class, of which
DownloadError and ExtractorError are subclasses. -/
def PyExc.isYoutubeDLError : PyExc → Bool
  | .downloadError _ => true
  | .extractorError _ => true
  | .youtubeDLError _ => true
  | _ => false

/-- str(error) for a modelled exception. -/
def PyExc.str : PyExc → String
  | .downloadError m => m
  | .extractorError m => m
  | .youtubeDLError m => m
  | .keyError k => k
  | .otherExc m => m

/-- One record emitted through the module logger. -/
inductive LogEntry where
  | warning (msg : String)
  | error (msg : String)
  | info (msg : String)
deriving DecidableEq

/-- youtube_playlist_downloader.DownloadConfig with its default values. -/
structure DownloadConfig where
  max_retries : Nat := 5
  max_workers : Nat := 4
  video_format : String := "bestvideo[ext=mp4]+bestaudio[ext=m4a]/best[ext=mp4]/best"
  output_template : String := "%(title)s.%(ext)s"
deriving DecidableEq

/-- The module level configuration object, config = DownloadConfig(). -/
def config : DownloadConfig := {}

/-- The keep condition of create_safe_filename: the Python test
c.isalnum() or c in [" ", "-", "_"], with list membership written as the
disjunction of the three equalities.  The builtin str.isalnum is Unicode
aware and is therefore passed in as the oracle isalnum rather than
approximated by an ASCII test. -/
def keepChar (isalnum : Char → Bool) (c : Char) : Bool :=
  isalnum c || c == ' ' || c == '-' || c == '_'

/-- The per character map of create_safe_filename. -/
def safeChar (isalnum : Char → Bool) (c : Char) : Char :=
  if keepChar isalnum c then c else '_'

/-- youtube_playlist_downloader.create_safe_filename: every character
failing the keep condition is replaced by an underscore.  The oracle
isalnum stands for the Unicode aware builtin str.isalnum. -/
def create_safe_filename (isalnum : Char → Bool) (filename : String) : String :=
  String.mk (filename.data.map (safeChar isalnum))

/-- os.path.join for two POSIX path segments. -/
def joinPath (a b : String) : String :=
  if b.startsWith "/" then b
  else if a == "" || a.endsWith "/" then a ++ b
  else a ++ "/" ++ b

/-- The alternatives of the optional scheme group (https?://)? of the
validate_url pattern: the group can match with or without the s, or be
skipped. -/
def schemeAlts : List String := ["http://", "https://", ""]

/-- The alternatives of the optional group (www.)? of the pattern. -/
def wwwAlts : List String := ["www.", ""]

/-- The host alternation of the pattern. -/
def hostAlts : List String := ["youtube.com", "youtu.be"]

/-- The tail pattern .+ of the regular expression: at least one
character, and the dot does not match a newline, so the first character
after the slash must not be a newline. -/
def tailMatch : List Char → Bool
  | [] => false
  | c :: _ => c != '\n'

/-- youtube_video_downloader.validate_url: re.match of the anchored
pattern (https?://)?(www.)?(youtube.com|youtu.be)/.+ succeeds exactly
when some choice of the optional groups and of the host alternation is a
literal head of the string, followed by a slash and a match of the tail
pattern. -/
def validate_url (url : String) : Bool :=
  schemeAlts.any fun scheme =>
    wwwAlts.any fun www =>
      hostAlts.any fun host =>
        (scheme ++ www ++ host ++ "/").data.isPrefixOf url.data &&
          tailMatch (url.data.drop (scheme ++ www ++ host ++ "/").data.length)

/-- The characterization claimed for validate_url: an optional scheme,
an optional www. prefix, a recognized host token, then a slash followed
by a non-empty path. -/
def specURLValid (url : String) : Prop :=
  ∃ scheme ∈ schemeAlts, ∃ www ∈ wwwAlts, ∃ host ∈ hostAlts, ∃ path : String,
    path ≠ "" ∧ url = scheme ++ www ++ host ++ "/" ++ path

/-- The amended characterization of validate_url: additionally the first
character of the path must not be a newline, because the dot of the
pattern does not match a newline. -/
def specURLValidAmended (url : String) : Prop :=
  ∃ scheme ∈ schemeAlts, ∃ www ∈ wwwAlts, ∃ host ∈ hostAlts, ∃ path : String,
    path ≠ "" ∧ path.data.head? ≠ some '\n' ∧
      url = scheme ++ www ++ host ++ "/" ++ path

/-- One entry of a playlist: the video_info dictionary restricted to the
keys the code reads.  A missing key is none. -/
structure VideoInfo where
  id : Option String
  title : Option String
deriving DecidableEq

/-- The metadata dictionary returned by extract_info, restricted to the
keys the code reads; otherKeys records whether the dictionary holds any
further key, which only matters for Python truthiness. -/
structure Metadata where
  title : Option String
  entries : Option (List (Option VideoInfo))
  otherKeys : Bool
deriving DecidableEq

/-- Python truthiness of the metadata dictionary: an empty dict is falsy. -/
def Metadata.isTruthy (m : Metadata) : Bool :=
  m.title.isSome || m.entries.isSome || m.otherKeys

/-- The options dictionary built by download_video. -/
structure YdlOpts where
  format : String
  outtmpl : String
  quiet : Bool
  no_warnings : Bool
deriving DecidableEq

/-- The ydl_opts value of download_video for a given output path. -/
def ydlOptsFor (output_path : String) : YdlOpts :=
  { format := config.video_format
    outtmpl := joinPath output_path config.output_template
    quiet := true
    no_warnings := true }

/-- The options dictionary passed to extract_info. -/
structure ExtractOpts where
  quiet : Bool
  no_warnings : Bool
  extract_flat : Option String
  force_generic_extractor : Bool
deriving DecidableEq

/-- The ydl_opts value of get_playlist_info. -/
def playlistExtractOpts : ExtractOpts :=
  { quiet := true, no_warnings := true, extract_flat := some "in_playlist",
    force_generic_extractor := true }

/-- The ydl_opts value of get_video_info. -/
def videoExtractOpts : ExtractOpts :=
  { quiet := true, no_warnings := true, extract_flat := none,
    force_generic_extractor := false }

/-- Outcome of one invocation of the external download call: it either
returns or raises an exception. -/
inductive DlCall where
  | ok
  | raise (e : PyExc)
deriving DecidableEq

/-- Observable outcome of download_video: the returned boolean, the log
records produced, and the number of invocations of the external download
call. -/
structure DVResult where
  retval : Bool
  logs : List LogEntry
  calls : Nat
deriving DecidableEq

/-- video_info.get("title", "Unknown video"). -/
def videoTitle (video_info : VideoInfo) : String :=
  video_info.title.getD "Unknown video"

/-- The warning text logged for one failed attempt; the source formats
"Attempt %d failed for %s: %s" with attempt + 1, the title, and
str(error). -/
def attemptFailMsg (attempt : Nat) (video_info : VideoInfo) (err : String) : String :=
  "Attempt " ++ toString (attempt + 1) ++ " failed for " ++
    videoTitle video_info ++ ": " ++ err

/-- The exhaustion text logged after the loop; the source formats
"Failed to download %s after %d attempts" with the title and
config.max_retries. -/
def exhaustFailMsg (video_info : VideoInfo) : String :=
  "Failed to download " ++ videoTitle video_info ++ " after " ++
    toString config.max_retries ++ " attempts"

/-- The f-string building the video URL from the id. -/
def watchUrl (videoId : String) : String :=
  "https://www.youtube.com/watch?v=" ++ videoId

/-- The body of the for loop of download_video, recursing over the
remaining iterations of range(config.max_retries).  Each iteration looks
up video_info["id"] inside the try block (raising KeyError when the key
is missing), invokes the external download call, returns True when the
call returns, and catches only yt_dlp.DownloadError, logging the warning
and continuing; any other exception propagates. -/
def attemptLoop (dl : Nat → YdlOpts → String → DlCall) (video_info : VideoInfo)
    (opts : YdlOpts) : Nat → Nat → List LogEntry → Nat → Except PyExc DVResult
  | _, 0, logs, calls =>
      .ok ⟨false, logs ++ [.error (exhaustFailMsg video_info)], calls⟩
  | attempt, remaining + 1, logs, calls =>
      match video_info.id with
      | none => .error (.keyError "id")
      | some v =>
          match dl attempt opts (watchUrl v) with
          | .ok => .ok ⟨true, logs, calls + 1⟩
          | .raise e =>
              if e.isDownloadError then
                attemptLoop dl video_info opts (attempt + 1) remaining
                  (logs ++ [.warning (attemptFailMsg attempt video_info e.str)])
                  (calls + 1)
              else .error e

/-- youtube_playlist_downloader.download_video.  The external download
call is the oracle dl, a function of the attempt index, the options and
the URL. -/
def download_video (dl : Nat → YdlOpts → String → DlCall)
    (video_info : VideoInfo) (output_path : String) : Except PyExc DVResult :=
  attemptLoop dl video_info (ydlOptsFor output_path) 0 config.max_retries [] 0

/-- youtube_playlist_downloader.get_playlist_info.  The external
extract_info call is the oracle extract.  The source catches
ExtractorError first and YoutubeDLError second, logging each with its
own text, and returns None in both cases; any other exception
propagates. -/
def get_playlist_info (extract : ExtractOpts → String → Except PyExc Metadata)
    (playlist_url : String) : Except PyExc (Option Metadata × List LogEntry) :=
  match extract playlistExtractOpts playlist_url with
  | .ok info => .ok (some info, [])
  | .error e =>
      if e.isExtractorError then
        .ok (none, [.error ("Failed to extract playlist information: " ++ e.str)])
      else if e.isYoutubeDLError then
        .ok (none, [.error ("A YouTube-DL error occurred: " ++ e.str)])
      else .error e

/-- youtube_video_downloader.get_video_info.  The source catches the
pair (yt_dlp.DownloadError, yt_dlp.utils.ExtractorError), logs, and
returns None; any other exception propagates. -/
def get_video_info (extract : ExtractOpts → String → Except PyExc Metadata)
    (url : String) : Except PyExc (Option Metadata × List LogEntry) :=
  match extract videoExtractOpts url with
  | .ok info => .ok (some info, [])
  | .error e =>
      if e.isDownloadError || e.isExtractorError then
        .ok (none, [.error ("Error retrieving video information: " ++ e.str)])
      else .error e

/-- Observable outcome of download_videos: the list of entries submitted
to the pool in submission order, the per future download_video results,
and the exception re-raised by the first failing future.result() call if
any; completion order is abstracted as submission order. -/
structure BatchResult where
  attempted : List VideoInfo
  outcomes : List (Except PyExc DVResult)
  raised : Option PyExc

/-- youtube_playlist_downloader.download_videos: one future is submitted
per truthy entry of the list, falsy entries are skipped by the
comprehension filter; future.result() re-raises any exception raised
inside a worker. -/
def download_videos (dl : Nat → YdlOpts → String → DlCall)
    (videos : List (Option VideoInfo)) (output_path : String) : BatchResult :=
  let submitted := videos.filterMap fun video => video
  let outcomes := submitted.map fun video => download_video dl video output_path
  { attempted := submitted
    outcomes := outcomes
    raised := outcomes.findSome? fun r =>
      match r with
      | .error e => some e
      | .ok _ => none }

/-- Observable outcome of download_playlist: the log records, the
directories created under the storage root, and the entries submitted
for download. -/
structure PlaylistEffects where
  logs : List LogEntry
  dirsCreated : List String
  attempted : List VideoInfo

/-- youtube_playlist_downloader.download_playlist.  The oracle mkdir
describes os.makedirs on the playlist path: none means it returned,
some err means it raised OSError err.  The falsy check of the source
(if not playlist_info) covers both None and an empty metadata dict and
runs before the entries check.  The oracle isalnum is the builtin used
by create_safe_filename. -/
def download_playlist (isalnum : Char → Bool)
    (extract : ExtractOpts → String → Except PyExc Metadata)
    (dl : Nat → YdlOpts → String → DlCall) (mkdir : String → Option String)
    (playlist_url storage_location : String) : Except PyExc PlaylistEffects :=
  match get_playlist_info extract playlist_url with
  | .error e => .error e
  | .ok (playlist_info, fetchLogs) =>
      match playlist_info with
      | none =>
          .ok { logs := fetchLogs ++ [.error "Failed to retrieve playlist information."]
                dirsCreated := []
                attempted := [] }
      | some info =>
          if info.isTruthy = false then
            .ok { logs := fetchLogs ++ [.error "Failed to retrieve playlist information."]
                  dirsCreated := []
                  attempted := [] }
          else
            match info.entries with
            | none =>
                .ok { logs := fetchLogs ++ [.error "No videos found in the playlist."]
                      dirsCreated := []
                      attempted := [] }
            | some entries =>
                let playlist_title := info.title.getD "Untitled Playlist"
                let safe_playlist_title := create_safe_filename isalnum playlist_title
                let playlist_path := joinPath storage_location safe_playlist_title
                match mkdir playlist_path with
                | some err =>
                    .ok { logs := fetchLogs ++
                            [.error ("Failed to create directory " ++ playlist_path ++
                              ": " ++ err)]
                          dirsCreated := []
                          attempted := [] }
                | none =>
                    let batch := download_videos dl entries playlist_path
                    match batch.raised with
                    | some e => .error e
                    | none =>
                        .ok { logs := fetchLogs ++
                                [.info ("Downloading playlist: " ++ playlist_title),
                                  .info "Playlist download complete!"]
                              dirsCreated := [playlist_path]
                              attempted := batch.attempted }

/-! ## Helper lemmas -/

lemma safeChar_idem (isalnum : Char → Bool) (c : Char) :
    safeChar isalnum (safeChar isalnum c) = safeChar isalnum c := by
  by_cases h : keepChar isalnum c
  · have hc : safeChar isalnum c = c := by rw [safeChar, if_pos h]
    rw [hc]
    exact hc
  · have hc : safeChar isalnum c = '_' := by rw [safeChar, if_neg h]
    have h2 : keepChar isalnum '_' = true := by simp [keepChar]
    rw [hc, safeChar, if_pos h2]

lemma count_filterMap_some (videos : List (Option VideoInfo)) (v : VideoInfo) :
    (videos.filterMap fun video => video).count v = videos.count (some v) := by
  induction videos with
  | nil => simp
  | cons head tail ih =>
      cases head with
      | none => simpa [List.count_cons] using ih
      | some a => simp [List.count_cons, ih]

lemma attemptLoop_keyError (dl : Nat → YdlOpts → String → DlCall)
    (vi : VideoInfo) (opts : YdlOpts) (attempt r : Nat) (logs : List LogEntry)
    (calls : Nat) (h : vi.id = none) (hr : r ≠ 0) :
    attemptLoop dl vi opts attempt r logs calls = .error (.keyError "id") := by
  cases r with
  | zero => exact absurd rfl hr
  | succ n => simp [attemptLoop, h]

lemma attemptLoop_exhaust (dl : Nat → YdlOpts → String → DlCall)
    (vi : VideoInfo) (opts : YdlOpts) (v : String) (m : Nat → String)
    (hid : vi.id = some v) :
    ∀ (r attempt : Nat) (logs : List LogEntry) (calls : Nat),
      (∀ i, i < r →
        dl (attempt + i) opts (watchUrl v) = .raise (.downloadError (m (attempt + i)))) →
      attemptLoop dl vi opts attempt r logs calls =
        .ok ⟨false,
          logs ++ (List.range' attempt r).map
            (fun i => .warning (attemptFailMsg i vi (m i))) ++
            [.error (exhaustFailMsg vi)],
          calls + r⟩ := by
  intro r
  induction r with
  | zero =>
      intro attempt logs calls _
      simp [attemptLoop]
  | succ n ih =>
      intro attempt logs calls hfail
      have h0 := hfail 0 (Nat.succ_pos n)
      rw [Nat.add_zero] at h0
      have hfail' : ∀ i, i < n →
          dl (attempt + 1 + i) opts (watchUrl v) =
            .raise (.downloadError (m (attempt + 1 + i))) := by
        intro i hi
        have hstep := hfail (i + 1) (Nat.succ_lt_succ hi)
        have harith : attempt + (i + 1) = attempt + 1 + i := by omega
        rwa [harith] at hstep
      have hrec := ih (attempt + 1)
        (logs ++ [.warning (attemptFailMsg attempt vi (m attempt))]) (calls + 1) hfail'
      simp only [attemptLoop, hid, h0, PyExc.isDownloadError, if_true, PyExc.str]
      rw [hrec, List.range'_succ]
      simp [List.append_assoc]
      omega

lemma attemptLoop_succeed (dl : Nat → YdlOpts → String → DlCall)
    (vi : VideoInfo) (opts : YdlOpts) (v : String) (m : Nat → String)
    (hid : vi.id = some v) :
    ∀ (j attempt r : Nat) (logs : List LogEntry) (calls : Nat), j < r →
      (∀ i, i < j →
        dl (attempt + i) opts (watchUrl v) = .raise (.downloadError (m (attempt + i)))) →
      dl (attempt + j) opts (watchUrl v) = .ok →
      attemptLoop dl vi opts attempt r logs calls =
        .ok ⟨true,
          logs ++ (List.range' attempt j).map
            (fun i => .warning (attemptFailMsg i vi (m i))),
          calls + j + 1⟩ := by
  intro j
  induction j with
  | zero =>
      intro attempt r logs calls hjr _ hok
      obtain ⟨n, rfl⟩ : ∃ n, r = n + 1 := ⟨r - 1, by omega⟩
      rw [Nat.add_zero] at hok
      simp [attemptLoop, hid, hok]
  | succ n ih =>
      intro attempt r logs calls hjr hfail hok
      obtain ⟨n', rfl⟩ : ∃ k, r = k + 1 := ⟨r - 1, by omega⟩
      have h0 := hfail 0 (Nat.succ_pos n)
      rw [Nat.add_zero] at h0
      have hfail' : ∀ i, i < n →
          dl (attempt + 1 + i) opts (watchUrl v) =
            .raise (.downloadError (m (attempt + 1 + i))) := by
        intro i hi
        have hstep := hfail (i + 1) (Nat.succ_lt_succ hi)
        have harith : attempt + (i + 1) = attempt + 1 + i := by omega
        rwa [harith] at hstep
      have hok' : dl (attempt + 1 + n) opts (watchUrl v) = .ok := by
        have harith : attempt + (n + 1) = attempt + 1 + n := by omega
        rwa [harith] at hok
      have hrec := ih (attempt + 1) n'
        (logs ++ [.warning (attemptFailMsg attempt vi (m attempt))]) (calls + 1)
        (by omega) hfail' hok'
      simp only [attemptLoop, hid, h0, PyExc.isDownloadError, if_true, PyExc.str]
      rw [hrec, List.range'_succ]
      simp [List.append_assoc]
      omega

lemma attemptLoop_propagate (dl : Nat → YdlOpts → String → DlCall)
    (vi : VideoInfo) (opts : YdlOpts) (v : String) (m : Nat → String) (e : PyExc)
    (hid : vi.id = some v) (he : e.isDownloadError = false) :
    ∀ (j attempt r : Nat) (logs : List LogEntry) (calls : Nat), j < r →
      (∀ i, i < j →
        dl (attempt + i) opts (watchUrl v) = .raise (.downloadError (m (attempt + i)))) →
      dl (attempt + j) opts (watchUrl v) = .raise e →
      attemptLoop dl vi opts attempt r logs calls = .error e := by
  intro j
  induction j with
  | zero =>
      intro attempt r logs calls hjr _ hbad
      obtain ⟨n, rfl⟩ : ∃ n, r = n + 1 := ⟨r - 1, by omega⟩
      rw [Nat.add_zero] at hbad
      simp [attemptLoop, hid, hbad, he]
  | succ n ih =>
      intro attempt r logs calls hjr hfail hbad
      obtain ⟨n', rfl⟩ : ∃ k, r = k + 1 := ⟨r - 1, by omega⟩
      have h0 := hfail 0 (Nat.succ_pos n)
      rw [Nat.add_zero] at h0
      have hfail' : ∀ i, i < n →
          dl (attempt + 1 + i) opts (watchUrl v) =
            .raise (.downloadError (m (attempt + 1 + i))) := by
        intro i hi
        have hstep := hfail (i + 1) (Nat.succ_lt_succ hi)
        have harith : attempt + (i + 1) = attempt + 1 + i := by omega
        rwa [harith] at hstep
      have hbad' : dl (attempt + 1 + n) opts (watchUrl v) = .raise e := by
        have harith : attempt + (n + 1) = attempt + 1 + n := by omega
        rwa [harith] at hbad
      have hrec := ih (attempt + 1) n'
        (logs ++ [.warning (attemptFailMsg attempt vi (m attempt))]) (calls + 1)
        (by omega) hfail' hbad'
      simp only [attemptLoop, hid, h0, PyExc.isDownloadError, if_true, PyExc.str]
      exact hrec

lemma prefixTail_iff (pre cs : List Char) :
    (pre.isPrefixOf cs && tailMatch (cs.drop pre.length)) = true ↔
      ∃ t : List Char, cs = pre ++ t ∧ t ≠ [] ∧ t.head? ≠ some '\n' := by
  constructor
  · intro h
    simp only [Bool.and_eq_true] at h
    rcases h with ⟨h1, h2⟩
    rcases List.isPrefixOf_iff_prefix.mp h1 with ⟨t, rfl⟩
    have h2' : tailMatch t = true := by rwa [List.drop_left] at h2
    cases t with
    | nil => simp [tailMatch] at h2'
    | cons c rest =>
        have hcne : c ≠ '\n' := by simpa [tailMatch] using h2'
        exact ⟨c :: rest, rfl, by simp, by simp [hcne]⟩
  · rintro ⟨t, rfl, hne, hhd⟩
    simp only [Bool.and_eq_true]
    refine ⟨List.isPrefixOf_iff_prefix.mpr ⟨t, rfl⟩, ?_⟩
    rw [List.drop_left]
    cases t with
    | nil => exact absurd rfl hne
    | cons c rest =>
        have hcne : c ≠ '\n' := by simpa using hhd
        simpa [tailMatch] using hcne

lemma validate_url_iff_amended (url : String) :
    validate_url url = true ↔ specURLValidAmended url := by
  unfold validate_url specURLValidAmended
  simp only [List.any_eq_true]
  constructor
  · rintro ⟨scheme, hs, www, hw, host, hh, hmatch⟩
    rcases (prefixTail_iff _ _).mp hmatch with ⟨t, hurl, hne, hhd⟩
    refine ⟨scheme, hs, www, hw, host, hh, String.mk t, ?_, hhd, ?_⟩
    · intro hc
      exact hne (congrArg String.data hc)
    · apply String.ext
      rw [hurl]
      simp [String.data_append]
  · rintro ⟨scheme, hs, www, hw, host, hh, path, hne, hhd, rfl⟩
    refine ⟨scheme, hs, www, hw, host, hh, ?_⟩
    apply (prefixTail_iff _ _).mpr
    refine ⟨path.data, ?_, ?_, hhd⟩
    · simp [String.data_append]
    · intro hnil
      exact hne (String.ext hnil)

/-! ## Claim theorems -/

/-- C1: with the id key present, when every invocation of the external
download call raises DownloadError, download_video makes exactly
max_retries invocations (the default being 5), logs one warning per
attempt naming the attempt number and the target title, logs the
exhaustion message naming the attempt count, and returns False; and
when some attempt raises an exception that is not a DownloadError, that
exception propagates out of download_video. -/
theorem spec_C1 :
    config.max_retries = 5 ∧
    (∀ (dl : Nat → YdlOpts → String → DlCall) (vi : VideoInfo)
        (output_path v : String) (m : Nat → String),
      vi.id = some v →
      (∀ i opts url, dl i opts url = .raise (.downloadError (m i))) →
      download_video dl vi output_path =
        .ok ⟨false,
          (List.range config.max_retries).map
            (fun i => .warning (attemptFailMsg i vi (m i))) ++
            [.error (exhaustFailMsg vi)],
          config.max_retries⟩) ∧
    (∀ (dl : Nat → YdlOpts → String → DlCall) (vi : VideoInfo)
        (output_path v : String) (j : Nat) (e : PyExc),
      vi.id = some v → j < config.max_retries →
      (∀ i, i < j → ∃ msg, dl i (ydlOptsFor output_path) (watchUrl v) =
        .raise (.downloadError msg)) →
      dl j (ydlOptsFor output_path) (watchUrl v) = .raise e →
      e.isDownloadError = false →
      download_video dl vi output_path = .error e) := by
  refine ⟨rfl, ?_, ?_⟩
  · intro dl vi output_path v m hid hall
    have h := attemptLoop_exhaust dl vi (ydlOptsFor output_path) v m hid
      config.max_retries 0 [] 0 (fun i _ => by rw [Nat.zero_add]; exact hall i _ _)
    rw [download_video, h]
    simp [List.range_eq_range']
  · intro dl vi output_path v j e hid hj hfail hbad he
    have hm : ∀ i, i < j →
        dl i (ydlOptsFor output_path) (watchUrl v) =
          .raise (.downloadError
            ((fun i => if h : i < j then (hfail i h).choose else "") i)) := by
      intro i hi
      simp only [dif_pos hi]
      exact (hfail i hi).choose_spec
    have h := attemptLoop_propagate dl vi (ydlOptsFor output_path) v
      (fun i => if h : i < j then (hfail i h).choose else "") e hid he j 0
      config.max_retries [] 0 hj
      (fun i hi => by rw [Nat.zero_add]; exact hm i hi)
      (by rw [Nat.zero_add]; exact hbad)
    rw [download_video, h]

/-- Closed instance of C1 discharging its hypotheses: a call that always
raises DownloadError yields five warnings, the exhaustion record and
False after five invocations. -/
theorem spec_C1_witness :
    download_video (fun _ _ _ => .raise (.downloadError "network error"))
      ⟨some "abc123", some "Demo"⟩ "/tmp" =
      .ok ⟨false,
        (List.range config.max_retries).map
          (fun i => .warning
            (attemptFailMsg i ⟨some "abc123", some "Demo"⟩ "network error")) ++
          [.error (exhaustFailMsg ⟨some "abc123", some "Demo"⟩)],
        config.max_retries⟩ :=
  spec_C1.2.1 (fun _ _ _ => .raise (.downloadError "network error"))
    ⟨some "abc123", some "Demo"⟩ "/tmp" "abc123" (fun _ => "network error") rfl
    (fun _ _ _ => rfl)

/-- C2: when the external download call raises DownloadError on the
first j attempts and returns on attempt j + 1, with j + 1 at most
max_retries, download_video returns True after exactly j + 1
invocations, with no further attempts and no post-download check of the
resulting file (the model performs none). -/
theorem spec_C2 (dl : Nat → YdlOpts → String → DlCall) (vi : VideoInfo)
    (output_path v : String) (m : Nat → String) (j : Nat)
    (hid : vi.id = some v) (hj : j < config.max_retries)
    (hfail : ∀ i, i < j → dl i (ydlOptsFor output_path) (watchUrl v) =
      .raise (.downloadError (m i)))
    (hok : dl j (ydlOptsFor output_path) (watchUrl v) = .ok) :
    download_video dl vi output_path =
      .ok ⟨true,
        (List.range j).map (fun i => .warning (attemptFailMsg i vi (m i))),
        j + 1⟩ := by
  have h := attemptLoop_succeed dl vi (ydlOptsFor output_path) v m hid j 0
    config.max_retries [] 0 hj
    (fun i hi => by rw [Nat.zero_add]; exact hfail i hi)
    (by rw [Nat.zero_add]; exact hok)
  rw [download_video, h]
  simp [List.range_eq_range']

/-- Closed instance of C2 discharging its hypotheses: success on
attempt 3 of 5 returns True after exactly 3 invocations. -/
theorem spec_C2_witness :
    download_video
      (fun i _ _ => if i < 2 then .raise (.downloadError "timeout") else .ok)
      ⟨some "abc123", some "Demo"⟩ "/tmp" =
      .ok ⟨true,
        (List.range 2).map
          (fun i => .warning (attemptFailMsg i ⟨some "abc123", some "Demo"⟩ "timeout")),
        3⟩ :=
  spec_C2 _ _ _ "abc123" (fun _ => "timeout") 2 rfl (by decide)
    (by intro i hi; interval_cases i <;> rfl) rfl

/-- C5: when the metadata fetch yields an absent result, or a result
without an entries key, download_playlist only logs an error: no
directory is created under the storage root and no download is
attempted. -/
theorem spec_C5 :
    (∀ (isalnum : Char → Bool)
        (extract : ExtractOpts → String → Except PyExc Metadata)
        (dl : Nat → YdlOpts → String → DlCall) (mkdir : String → Option String)
        (playlist_url storage_location : String) (fetchLogs : List LogEntry),
      get_playlist_info extract playlist_url = .ok (none, fetchLogs) →
      download_playlist isalnum extract dl mkdir playlist_url storage_location =
        .ok ⟨fetchLogs ++ [.error "Failed to retrieve playlist information."],
          [], []⟩) ∧
    (∀ (isalnum : Char → Bool)
        (extract : ExtractOpts → String → Except PyExc Metadata)
        (dl : Nat → YdlOpts → String → DlCall) (mkdir : String → Option String)
        (playlist_url storage_location : String) (fetchLogs : List LogEntry)
        (m : Metadata),
      get_playlist_info extract playlist_url = .ok (some m, fetchLogs) →
      m.entries = none →
      download_playlist isalnum extract dl mkdir playlist_url storage_location =
        .ok ⟨fetchLogs ++
          [.error (if m.isTruthy then "No videos found in the playlist."
            else "Failed to retrieve playlist information.")], [], []⟩) := by
  constructor
  · intro isalnum extract dl mkdir playlist_url storage_location fetchLogs h
    simp [download_playlist, h]
  · intro isalnum extract dl mkdir playlist_url storage_location fetchLogs m h hent
    cases ht : m.isTruthy <;> simp [download_playlist, h, ht, hent]

/-- Closed instance of C5 discharging its hypotheses: a metadata dict
with a title but no entries key aborts with only a logged error. -/
theorem spec_C5_witness :
    download_playlist Char.isAlphanum
      (fun _ _ => .ok ⟨some "My Playlist", none, false⟩)
      (fun _ _ _ => DlCall.ok) (fun _ => none)
      "https://youtube.com/playlist?list=L" "/store" =
      .ok ⟨[.error "No videos found in the playlist."], [], []⟩ :=
  spec_C5.2 Char.isAlphanum (fun _ _ => .ok ⟨some "My Playlist", none, false⟩)
    (fun _ _ _ => DlCall.ok) (fun _ => none)
    "https://youtube.com/playlist?list=L" "/store" []
    ⟨some "My Playlist", none, false⟩ rfl rfl

/-- C6 counterexample: the string youtube.com followed by a slash and a
newline satisfies the claimed characterization (host token, slash,
non-empty path) yet validate_url rejects it, because the dot of the
pattern does not match a newline. -/
theorem spec_C6_counterexample :
    validate_url "youtube.com/\n" = false ∧ specURLValid "youtube.com/\n" := by
  constructor
  · decide
  · exact ⟨"", by decide, "", by decide, "youtube.com", by decide, "\n",
      by decide, by decide⟩

/-- C6 amended: validate_url accepts exactly the strings beginning with
an optional http or https scheme, an optional www. prefix, one of the
host tokens youtube.com or youtu.be, and a slash followed by a non-empty
path whose first character is not a newline; the three example URLs are
accepted and bare scheme-plus-host strings, with or without a trailing
slash, are rejected. -/
theorem spec_C6 :
    (∀ url, validate_url url = true ↔ specURLValidAmended url) ∧
    validate_url "https://www.youtube.com/watch?v=ID" = true ∧
    validate_url "https://youtu.be/ID" = true ∧
    validate_url "http://www.youtube.com/playlist?list=ID" = true ∧
    validate_url "https://www.youtube.com" = false ∧
    validate_url "https://www.youtube.com/" = false :=
  ⟨validate_url_iff_amended, by decide, by decide, by decide, by decide,
    by decide⟩

/-- C7: for every interpretation of the alphanumeric builtin,
create_safe_filename preserves the length, keeps every character that is
alphanumeric, a space, a hyphen or an underscore unchanged, replaces
every other character one for one by an underscore, and its output holds
only characters from the allowed set. -/
theorem spec_C7 (isalnum : Char → Bool) (s : String) :
    (create_safe_filename isalnum s).length = s.length ∧
    (∀ c ∈ (create_safe_filename isalnum s).data,
      (isalnum c || c == ' ' || c == '-' || c == '_') = true) ∧
    ∀ (i : Nat) (c : Char), s.data[i]? = some c →
      (create_safe_filename isalnum s).data[i]? =
        some (if isalnum c || c == ' ' || c == '-' || c == '_' then c else '_') := by
  refine ⟨?_, ?_, ?_⟩
  · show (s.data.map (safeChar isalnum)).length = s.data.length
    simp
  · intro c hc
    rcases List.mem_map.mp hc with ⟨a, _, rfl⟩
    by_cases h : keepChar isalnum a
    · simp only [safeChar, if_pos h]
      simpa [keepChar] using h
    · simp only [safeChar, if_neg h]
      simp [keepChar]
  · intro i c h
    show (s.data.map (safeChar isalnum))[i]? = _
    rw [List.getElem?_map, h]
    simp [safeChar, keepChar]

/-- Closed instance of C7 discharging its hypothesis: under the ASCII
interpretation of the builtin, the slash of "a/b" is replaced by an
underscore at position 1. -/
theorem spec_C7_witness :
    (create_safe_filename Char.isAlphanum "a/b").data[1]? = some '_' :=
  (spec_C7 Char.isAlphanum "a/b").2.2 1 '/' rfl

/-- C9: for every interpretation of the alphanumeric builtin,
create_safe_filename is idempotent, because every character of its
output satisfies the keep condition and is therefore mapped to itself. -/
theorem spec_C9 (isalnum : Char → Bool) (s : String) :
    create_safe_filename isalnum (create_safe_filename isalnum s) =
      create_safe_filename isalnum s := by
  apply String.ext
  simp only [create_safe_filename, List.map_map]
  exact List.map_congr_left fun a _ => safeChar_idem isalnum a

/-- C10: when the video_info dictionary lacks the id key, download_video
raises KeyError out of the first loop iteration instead of returning
False; the KeyError is not a DownloadError, so the except clause does
not catch it. -/
theorem spec_C10 (dl : Nat → YdlOpts → String → DlCall)
    (video_info : VideoInfo) (output_path : String)
    (h : video_info.id = none) :
    download_video dl video_info output_path = .error (.keyError "id") ∧
    (PyExc.keyError "id").isDownloadError = false := by
  constructor
  · exact attemptLoop_keyError dl video_info (ydlOptsFor output_path) 0
      config.max_retries [] 0 h (by decide)
  · rfl

/-- Closed instance of C10 discharging its hypothesis at a concrete
video_info without an id. -/
theorem spec_C10_witness :
    download_video (fun _ _ _ => DlCall.ok) ⟨none, some "Demo"⟩ "/tmp" =
      .error (.keyError "id") ∧
    (PyExc.keyError "id").isDownloadError = false :=
  spec_C10 (fun _ _ _ => DlCall.ok) ⟨none, some "Demo"⟩ "/tmp" rfl

/-- C3: download_videos submits exactly one download_video call per
truthy entry, skips every falsy entry, and for entries A, None, B it
attempts exactly A and B; the configured pool size is at least 2.  The
orchestrator itself emits no log record, so a skipped entry is not
logged as a failure. -/
theorem spec_C3 :
    (∀ (dl : Nat → YdlOpts → String → DlCall) (output_path : String)
        (A B : VideoInfo),
      (download_videos dl [some A, none, some B] output_path).attempted = [A, B]) ∧
    (∀ (dl : Nat → YdlOpts → String → DlCall) (output_path : String)
        (videos : List (Option VideoInfo)),
      (download_videos dl videos output_path).attempted =
        videos.filterMap (fun video => video) ∧
      (download_videos dl videos output_path).outcomes =
        (download_videos dl videos output_path).attempted.map
          (fun video => download_video dl video output_path)) ∧
    (∀ (dl : Nat → YdlOpts → String → DlCall) (output_path : String)
        (videos : List (Option VideoInfo)) (v : VideoInfo),
      (download_videos dl videos output_path).attempted.count v =
        videos.count (some v)) ∧
    2 ≤ config.max_workers := by
  refine ⟨fun _ _ _ _ => rfl, fun _ _ _ => ⟨rfl, rfl⟩, ?_, by decide⟩
  intro dl output_path videos v
  simpa [download_videos] using count_filterMap_some videos v

/-- C4 counterexample: a general library error that is neither a
DownloadError nor an ExtractorError is an expected yt_dlp error
category, yet get_video_info propagates it to the caller instead of
returning an absent result. -/
theorem spec_C4_counterexample :
    (PyExc.youtubeDLError "network failure").isYoutubeDLError = true ∧
    get_video_info (fun _ _ => .error (.youtubeDLError "network failure"))
      "https://youtu.be/x" = .error (.youtubeDLError "network failure") :=
  ⟨rfl, rfl⟩

/-- C4 amended: get_playlist_info swallows every expected library error
category, logging and returning an absent result; get_video_info does so
only for DownloadError and ExtractorError and propagates a general
library error that is neither. -/
theorem spec_C4 :
    (∀ (extract : ExtractOpts → String → Except PyExc Metadata)
        (url : String) (e : PyExc),
      extract playlistExtractOpts url = .error e → e.isYoutubeDLError = true →
      ∃ logs, get_playlist_info extract url = .ok (none, logs) ∧ logs ≠ []) ∧
    (∀ (extract : ExtractOpts → String → Except PyExc Metadata)
        (url : String) (e : PyExc),
      extract videoExtractOpts url = .error e →
      (e.isDownloadError || e.isExtractorError) = true →
      ∃ logs, get_video_info extract url = .ok (none, logs) ∧ logs ≠ []) ∧
    (∀ (extract : ExtractOpts → String → Except PyExc Metadata)
        (url : String) (e : PyExc),
      extract videoExtractOpts url = .error e →
      e.isDownloadError = false → e.isExtractorError = false →
      get_video_info extract url = .error e) := by
  refine ⟨?_, ?_, ?_⟩
  · intro extract url e h he
    cases e with
    | downloadError m =>
        exact ⟨[.error ("A YouTube-DL error occurred: " ++ m)],
          by simp [get_playlist_info, h, PyExc.isExtractorError,
            PyExc.isYoutubeDLError, PyExc.str], by simp⟩
    | extractorError m =>
        exact ⟨[.error ("Failed to extract playlist information: " ++ m)],
          by simp [get_playlist_info, h, PyExc.isExtractorError, PyExc.str],
          by simp⟩
    | youtubeDLError m =>
        exact ⟨[.error ("A YouTube-DL error occurred: " ++ m)],
          by simp [get_playlist_info, h, PyExc.isExtractorError,
            PyExc.isYoutubeDLError, PyExc.str], by simp⟩
    | keyError k => simp [PyExc.isYoutubeDLError] at he
    | otherExc m => simp [PyExc.isYoutubeDLError] at he
  · intro extract url e h he
    cases e with
    | downloadError m =>
        exact ⟨[.error ("Error retrieving video information: " ++ m)],
          by simp [get_video_info, h, PyExc.isDownloadError, PyExc.str], by simp⟩
    | extractorError m =>
        exact ⟨[.error ("Error retrieving video information: " ++ m)],
          by simp [get_video_info, h, PyExc.isDownloadError,
            PyExc.isExtractorError, PyExc.str], by simp⟩
    | youtubeDLError m =>
        simp [PyExc.isDownloadError, PyExc.isExtractorError] at he
    | keyError k => simp [PyExc.isDownloadError, PyExc.isExtractorError] at he
    | otherExc m => simp [PyExc.isDownloadError, PyExc.isExtractorError] at he
  · intro extract url e h h1 h2
    simp [get_video_info, h, h1, h2]

/-- Closed instance of the amended C4 discharging its hypotheses: an
ExtractorError from the metadata fetch yields an absent result with a
logged failure. -/
theorem spec_C4_witness :
    ∃ logs, get_playlist_info (fun _ _ => .error (.extractorError "bad url"))
      "https://youtu.be/x" = .ok (none, logs) ∧ logs ≠ [] :=
  spec_C4.1 (fun _ _ => .error (.extractorError "bad url"))
    "https://youtu.be/x" (.extractorError "bad url") rfl rfl

end YTDL
